import Mathlib

/-!
Shallow embedding of `src/miniviewer.py` (the MiniViewer image browser).

The Tk widget tree, the rendering canvas and the external collaborators
(image codec, filesystem, trash, dialogs) are abstracted: filesystem and
codec outcomes are supplied by a `World` record of oracle functions, and
the mutable `MiniViewer` object is the `AppState` record.  Paths are
plain strings; every path that enters the file list comes from a
directory listing and therefore contains a directory component, so
Python `Path` equality coincides with string equality on them.
-/

namespace MiniViewer

/-- Python `str.lower()` (ASCII case, which is all the extension set needs). -/
def strLower (s : String) : String :=
  String.mk (s.data.map Char.toLower)

/-- Python `str.strip()`: whitespace removed from both ends. -/
def pyStrip (s : String) : String :=
  String.mk (((s.data.dropWhile Char.isWhitespace).reverse.dropWhile
      Char.isWhitespace).reverse)

/-- Python `PurePath.name`: the final path component (after the last slash). -/
def pathName (p : String) : String :=
  String.mk ((p.data.reverse.takeWhile (fun c => c ≠ '/')).reverse)

/-- Python `PurePath.parent` rendered as a string: everything before the last
slash (`"."` when there is no slash, as in pathlib). -/
def parentPath (p : String) : String :=
  match p.data.reverse.dropWhile (fun c => c ≠ '/') with
  | [] => "."
  | _ :: rest => String.mk rest.reverse

/-- Python `parent / name`: join with a slash. -/
def joinPath (d f : String) : String := d ++ "/" ++ f

/-- Python `str.rfind(c)`: index of the last occurrence, if any. -/
def rfindIdx (l : List Char) (c : Char) : Option Nat :=
  match l.reverse.findIdx? (fun x => x = c) with
  | none => none
  | some j => some (l.length - 1 - j)

/-- Python `PurePath.suffix`: the extension of the final component including
the dot; empty when the name has no dot, starts with its only dot, or ends
in a dot (pathlib's `0 < i < len(name) - 1` condition). -/
def pathSuffix (p : String) : String :=
  let name := (pathName p).data
  match rfindIdx name '.' with
  | none => ""
  | some i => if 0 < i ∧ i < name.length - 1 then String.mk (name.drop i) else ""

/-- Python `PurePath.stem`: the final component without its suffix. -/
def pathStem (p : String) : String :=
  let name := (pathName p).data
  match rfindIdx name '.' with
  | none => String.mk name
  | some i => if 0 < i ∧ i < name.length - 1 then String.mk (name.take i)
              else String.mk name

/-- `SUPPORTED_EXTS` from the source. -/
def SUPPORTED_EXTS : List String :=
  [".heic", ".heif", ".jpg", ".jpeg", ".png", ".webp", ".bmp", ".tiff"]

/-- The filter in `load_path`: `x.suffix.lower() in SUPPORTED_EXTS`. -/
def supportedFile (x : String) : Bool :=
  SUPPORTED_EXTS.contains (strLower (pathSuffix x))

/-- Lexicographic comparison of character lists by code point, the order
Python uses to compare strings. -/
def charListLe : List Char → List Char → Bool
  | [], _ => true
  | _ :: _, [] => false
  | a :: as, b :: bs =>
      if a < b then true
      else if b < a then false
      else charListLe as bs

/-- Python string `<=`: lexicographic by code point. -/
def strLe (a b : String) : Bool := charListLe a.data b.data

/-- Python `sorted` / `list.sort()` on paths: lexicographic string order.
Insertion sort produces the same list as any stable sort for a total order. -/
def sortStrings (l : List String) : List String :=
  List.insertionSort (fun a b => strLe a b = true) l

/-- A decoded image as far as the core state cares: pixel dimensions
(`decode`/`resize`/`rotate` internals belong to the external codec). -/
structure PyImage where
  width : Nat
  height : Nat
  deriving Repr, DecidableEq

/-- Outcome of the open dialog (`_ask_open_choice` plus the file/folder
pickers), supplied by the environment. -/
inductive OpenChoice
  | file (p : String)
  | folder (p : String)
  | cancel
  deriving Repr, DecidableEq

/-- A Python exception escaping a core operation. -/
inductive PyErr
  | notFound
  deriving Repr, DecidableEq

/-- A filesystem mutation actually performed by an operation. -/
inductive FsOp
  | fsRename (oldPath newPath : String)
  | trash (p : String)
  deriving Repr, DecidableEq

/-- The external collaborators: codec, filesystem, trash, dialogs.
`listDir p = none` models `iterdir` raising (directory missing or
inaccessible); `decode p = none` models `Image.open`/`convert` raising;
`renameOk`/`trashOk` tell whether the filesystem call succeeds;
`mtimeDate p` is the formatted `YYYYMMDD` of `p.stat().st_mtime`
(`none` when `stat` raises); `rotateImg` is PIL `Image.rotate` with
`expand=True` applied to the given (negated) angle. -/
structure World where
  decode : String → Option PyImage
  isDir : String → Bool
  listDir : String → Option (List String)
  pathExists : String → Bool
  renameOk : String → String → Bool
  trashOk : String → Bool
  mtimeDate : String → Option String
  openChoice : OpenChoice
  rotateImg : PyImage → Int → PyImage

/-- The mutable state of the `MiniViewer` object.  `rename_entry` is the
overlay Entry widget, modelled by its text (`none` = no widget, i.e. not
renaming); `conflictBound` records whether the `CONFLICT_BINDINGS` keys are
currently bound (`_bind_keys` binds them, `start_rename` unbinds them);
`lastDialog` records the text of the last modal error dialog
(`messagebox.showerror`). -/
structure AppState where
  files : List String
  index : Nat
  zoom : ℚ
  fit_mode : Bool
  rotation : Int
  image : Option PyImage
  fullscreen : Bool
  rename_entry : Option String
  rename_current_path : Option String
  conflictBound : Bool
  status : String
  lastDialog : Option String
  deriving Repr, DecidableEq

/-- The state after `__init__` (before any `load_path`). -/
def initialState : AppState :=
  { files := []
    index := 0
    zoom := 1
    fit_mode := true
    rotation := 0
    image := none
    fullscreen := false
    rename_entry := none
    rename_current_path := none
    conflictBound := true
    status := "Open (O) file or folder…"
    lastDialog := none }

/-- `open_index(i)`: guard on an empty list, set `self.index = i % len(files)`
(Python `%`, nonnegative for a positive length, is `Int.emod`), then try to
decode; on success the view state is reset and the status shows the name,
position and dimensions; on a decode failure only the status changes (the
index assignment happened before the `try`). -/
def open_index (w : World) (s : AppState) (i : Int) : AppState :=
  if s.files = [] then s
  else
    let idx := (i % (s.files.length : Int)).toNat
    let path := s.files.getD idx ""
    match w.decode path with
    | some img =>
        { s with
          index := idx
          image := some img
          rotation := 0
          fit_mode := true
          zoom := 1
          status := pathName path ++ "  [" ++ toString (idx + 1) ++ "/"
            ++ toString s.files.length ++ "]  " ++ toString img.width ++ "×"
            ++ toString img.height }
    | none =>
        { s with
          index := idx
          status := "Failed to open: " ++ pathName path ++ " (error)" }

/-- `next()`: `open_index(self.index + 1)` unless the list is empty. -/
def next (w : World) (s : AppState) : AppState :=
  if s.files = [] then s else open_index w s ((s.index : Int) + 1)

/-- `prev()`: `open_index(self.index - 1)` unless the list is empty. -/
def prev (w : World) (s : AppState) : AppState :=
  if s.files = [] then s else open_index w s ((s.index : Int) - 1)

/-- The spec's `advance(delta)`; the source implements it for `delta = ±1`
as `next`/`prev`, both of which are `open_index(self.index + delta)` behind
the same empty-list guard. -/
def advance (w : World) (s : AppState) (delta : Int) : AppState :=
  if s.files = [] then s else open_index w s ((s.index : Int) + delta)

/-- `cancel_rename()`: when the Entry widget exists, destroy it, clear the
stored path and restore the key bindings (`_bind_keys`). -/
def cancel_rename (s : AppState) : AppState :=
  if s.rename_entry.isSome then
    { s with rename_entry := none, rename_current_path := none,
             conflictBound := true }
  else s

/-- `delete_current()` returning both the new state and the filesystem
mutations performed.  The out-of-range lookup `self.files[self.index]`
sits outside the `try`, so an `IndexError` would escape to the toolkit
with the state untouched; that case is the `none` branch. -/
def delete_currentFull (w : World) (s : AppState) : AppState × List FsOp :=
  if s.files = [] then (s, [])
  else
    match s.files[s.index]? with
    | none => (s, [])
    | some path =>
        if w.trashOk path then
          let files1 := s.files.eraseIdx s.index
          let idx1 := if files1.length ≤ s.index then max 0 (files1.length - 1)
                      else s.index
          let s1 := { s with status := "Deleted: " ++ pathName path,
                             files := files1, index := idx1 }
          if files1 = [] then
            ({ s1 with image := none, status := "No images left." },
             [FsOp.trash path])
          else
            (open_index w s1 (idx1 : Int), [FsOp.trash path])
        else
          ({ s with status := "Failed to delete " ++ pathName path
                              ++ ": (error)" }, [])

/-- `delete_current()`, state part. -/
def delete_current (w : World) (s : AppState) : AppState :=
  (delete_currentFull w s).1

/-- `start_rename(use_date)`: guarded by a loaded image; cancels an existing
draft first; unbinds the `CONFLICT_BINDINGS` keys; stores the current path
and creates the Entry pre-filled with the date stamp or the stem (falling
back to the stem, with an error status, when `stat` raises).  The lookup
`self.files[self.index]` happens after the unbinding, so an `IndexError`
would leave the keys unbound with no draft (the `none` branch). -/
def start_rename (w : World) (s : AppState) (use_date : Bool) : AppState :=
  if s.image = none then s
  else
    let s1 := if s.rename_entry.isSome then cancel_rename s else s
    let s2 := { s1 with conflictBound := false }
    match s2.files[s2.index]? with
    | none => s2
    | some path =>
        match use_date, w.mtimeDate path with
        | true, some d =>
            { s2 with rename_current_path := some path,
                      rename_entry := some (d ++ "_") }
        | true, none =>
            { s2 with rename_current_path := some path,
                      rename_entry := some (pathStem path),
                      status := "Error getting date for rename: (error)" }
        | false, _ =>
            { s2 with rename_current_path := some path,
                      rename_entry := some (pathStem path) }

/-- `do_rename()` returning both the new state and the filesystem mutations
performed.  Faithful to the source's control flow: the empty-name check
returns before the `try`/`finally`, so only it preserves the draft; every
path through the `try` block — no-op name, conflict (which only shows a
modal dialog), a raising `rename`, the post-rename `pop` raising, and
success — runs the `finally` clause, i.e. ends in `cancel_rename`. -/
def do_renameFull (w : World) (s : AppState) : AppState × List FsOp :=
  match s.rename_entry with
  | none => (s, [])
  | some txt =>
      let new_name_stem := pyStrip txt
      if new_name_stem = "" then
        ({ s with status := "Rename failed: New name cannot be empty." }, [])
      else
        match s.rename_current_path with
        | none =>
            -- `None.suffix` raises inside the `try`; `except` sets the
            -- status, `finally` cancels.
            (cancel_rename { s with status := "Rename failed: (error)" }, [])
        | some current_path =>
            let extension := pathSuffix current_path
            let new_path := joinPath (parentPath current_path)
                              (new_name_stem ++ extension)
            if new_path = current_path then
              (cancel_rename
                { s with status := "Name is unchanged. Aborting rename." }, [])
            else if w.pathExists new_path then
              (cancel_rename
                { s with lastDialog := some ("File already exists: "
                    ++ pathName new_path) }, [])
            else if w.renameOk current_path new_path = false then
              (cancel_rename { s with status := "Rename failed: (error)" }, [])
            else if s.files.length ≤ s.index then
              -- the filesystem rename succeeded, then `pop` raised
              (cancel_rename { s with status := "Rename failed: (error)" },
               [FsOp.fsRename current_path new_path])
            else
              let files1 := sortStrings (s.files.eraseIdx s.index ++ [new_path])
              let s1 := { s with files := files1,
                                 index := files1.findIdx (fun x => x == new_path),
                                 rename_current_path := none }
              let s2 := open_index w s1 (s1.index : Int)
              (cancel_rename
                { s2 with status := "Renamed to: " ++ pathName new_path },
               [FsOp.fsRename current_path new_path])

/-- `do_rename()`, state part. -/
def do_rename (w : World) (s : AppState) : AppState :=
  (do_renameFull w s).1

/-- `rotate(deg)`: guarded by a loaded image; the stored angle wraps with
Python `%` (nonnegative), and the in-memory raster is rotated by the
external codec with the negated angle and expanding bounds. -/
def rotate (w : World) (s : AppState) (deg : Int) : AppState :=
  match s.image with
  | none => s
  | some img =>
      { s with rotation := (s.rotation + deg) % 360,
               image := some (w.rotateImg img (-deg)) }

/-- Python `max(a, b)` on numbers (first argument on ties, which is
value-irrelevant here). -/
def pyMax (a b : ℚ) : ℚ := if a < b then b else a

/-- Python `min(a, b)` on numbers (first argument on ties). -/
def pyMin (a b : ℚ) : ℚ := if b < a then b else a

/-- `set_zoom(z)`: guarded by a loaded image; clamp to `[0.05, 8.0]` and
leave fit mode. -/
def set_zoom (s : AppState) (z : ℚ) : AppState :=
  match s.image with
  | none => s
  | some _ => { s with zoom := pyMax 0.05 (pyMin 8.0 z), fit_mode := false }

/-- `zoom_by(factor)`: literally `set_zoom(self.zoom * factor)`. -/
def zoom_by (s : AppState) (factor : ℚ) : AppState :=
  set_zoom s (s.zoom * factor)

/-- `fit()`: reassert fit mode (the stored zoom is untouched). -/
def fit (s : AppState) : AppState :=
  { s with fit_mode := true }

/-- `toggle_fullscreen()`. -/
def toggle_fullscreen (s : AppState) : AppState :=
  { s with fullscreen := !s.fullscreen }

/-- `exit_fullscreen()`. -/
def exit_fullscreen (s : AppState) : AppState :=
  if s.fullscreen then { s with fullscreen := false } else s

/-- The combined Escape handler: cancel the rename when one is active,
otherwise leave fullscreen. -/
def cancel_rename_or_exit_fullscreen (s : AppState) : AppState :=
  if s.rename_entry.isSome then cancel_rename s else exit_fullscreen s

/-- `load_path(p)`: directory branch lists, filters and sorts the children
and starts at index 0; file branch lists the siblings, locating `p` or
appending and re-sorting it.  A raising `iterdir` (missing or inaccessible
directory) escapes as an exception — there is no `try` around the scan, so
the error propagates to the caller with no status message and no state
change (`self.files` is only assigned after the listing succeeds). -/
def load_path (w : World) (s : AppState) (p : String) : Except PyErr AppState :=
  if w.isDir p then
    match w.listDir p with
    | none => Except.error PyErr.notFound
    | some entries =>
        let fs := sortStrings (entries.filter supportedFile)
        let s1 := { s with files := fs, index := 0 }
        if s1.files = [] then
          Except.ok { s1 with status := "No images found in that location." }
        else
          Except.ok (open_index w s1 (s1.index : Int))
  else
    match w.listDir (parentPath p) with
    | none => Except.error PyErr.notFound
    | some entries =>
        let fs := sortStrings (entries.filter supportedFile)
        let s1 : AppState :=
          if p ∈ fs then
            { s with files := fs, index := fs.findIdx (fun x => x == p) }
          else
            let fs2 := sortStrings (fs ++ [p])
            { s with files := fs2, index := fs2.findIdx (fun x => x == p) }
        if s1.files = [] then
          Except.ok { s1 with status := "No images found in that location." }
        else
          Except.ok (open_index w s1 (s1.index : Int))

/-- `open_dialog()`: the user's choice comes from the environment; a path
choice runs `load_path`.  An exception escaping `load_path` crosses the Tk
callback boundary, which reports and swallows it, so the state (not yet
mutated at the raise point) is unchanged. -/
def open_dialog (w : World) (s : AppState) : AppState :=
  match w.openChoice with
  | OpenChoice.file p =>
      match load_path w s p with
      | Except.ok s1 => s1
      | Except.error _ => s
  | OpenChoice.folder p =>
      match load_path w s p with
      | Except.ok s1 => s1
      | Except.error _ => s
  | OpenChoice.cancel => s

/-- `main()` up to entering the event loop: construct the initial state and
run `load_path` on the optional starting path.  An exception here is before
`mainloop`, so it terminates the process (the `error` result). -/
def startup (w : World) (start : Option String) : Except PyErr AppState :=
  match start with
  | none => Except.ok initialState
  | some p => load_path w initialState p

/-- The input identities bound in `_bind_keys` (the `<Configure>` redraw
event only re-renders and is omitted; `<MouseWheel>` is split into its two
delta signs, which coincide with `<Button-4>`/`<Button-5>`). -/
inductive Key
  | left | right | space | deleteKey | backspace
  | plus | equal | minus | zeroKey | oneKey
  | rLower | rUpper | tLower | tUpper
  | fLower | oLower | oUpper
  | escape | enter | wheelUp | wheelDown
  deriving Repr, DecidableEq

/-- Membership in `CONFLICT_BINDINGS`: exactly the single-key shortcuts that
`start_rename` unbinds. -/
def conflictKey (k : Key) : Bool :=
  match k with
  | Key.left | Key.right | Key.space | Key.deleteKey | Key.backspace
  | Key.plus | Key.equal | Key.minus | Key.zeroKey | Key.oneKey
  | Key.rLower | Key.rUpper | Key.tLower | Key.tUpper
  | Key.fLower | Key.oLower | Key.oUpper => true
  | Key.escape | Key.enter | Key.wheelUp | Key.wheelDown => false

/-- The handler table of `_bind_keys`. -/
def keyAction (w : World) (s : AppState) (k : Key) : AppState :=
  match k with
  | Key.left => prev w s
  | Key.right => next w s
  | Key.space => next w s
  | Key.backspace => delete_current w s
  | Key.deleteKey => delete_current w s
  | Key.plus => zoom_by s 1.25
  | Key.equal => zoom_by s 1.25
  | Key.minus => zoom_by s 0.8
  | Key.zeroKey => fit s
  | Key.oneKey => set_zoom s 1.0
  | Key.rLower => rotate w s 90
  | Key.rUpper => rotate w s (-90)
  | Key.tLower => start_rename w s false
  | Key.tUpper => start_rename w s true
  | Key.fLower => toggle_fullscreen s
  | Key.oLower => open_dialog w s
  | Key.oUpper => open_dialog w s
  | Key.escape => cancel_rename_or_exit_fullscreen s
  | Key.enter => do_rename w s
  | Key.wheelUp => zoom_by s 1.1
  | Key.wheelDown => zoom_by s 0.9

/-- Event delivery: a key in `CONFLICT_BINDINGS` whose binding has been
removed reaches no handler and the event does nothing; every other
delivered input runs its handler. -/
def dispatchKey (w : World) (s : AppState) (k : Key) : AppState :=
  if conflictKey k && !s.conflictBound then s else keyAction w s k

/-- An environment in which every external call succeeds: everything
decodes to a 4×3 image, `d` is the only directory and lists the scenario
files `b.jpg`, `a.png`, `c.heic`, no rename target exists on disk, and
renames, deletions and `stat` all succeed. -/
def exWorld : World :=
  { decode := fun _ => some { width := 4, height := 3 }
    isDir := fun p => p = "d"
    listDir := fun p => if p = "d"
      then some ["d/b.jpg", "d/a.png", "d/c.heic"] else none
    pathExists := fun _ => false
    renameOk := fun _ _ => true
    trashOk := fun _ => true
    mtimeDate := fun _ => some "20250101"
    openChoice := OpenChoice.cancel
    rotateImg := fun img _ => img }

/-- Like `exWorld`, except `d/b.jpg` already exists on disk (the rename
conflict target). -/
def conflictWorld : World :=
  { exWorld with pathExists := fun p => p = "d/b.jpg" }

/-- An environment where no directory exists: `is_dir` is false and every
`iterdir` raises; the open dialog picks the missing folder `gone/photos`. -/
def goneWorld : World :=
  { exWorld with
    isDir := fun _ => false
    listDir := fun _ => none
    openChoice := OpenChoice.folder "gone/photos" }

/-- Like `exWorld` but every decode fails (corrupt files). -/
def corruptWorld : World :=
  { exWorld with decode := fun _ => none }

/-- A state in the middle of renaming `d/a.jpg`: the Entry holds the text
`b`, the stored path is set, and the conflict keys are unbound. -/
def renamingState : AppState :=
  { files := ["d/a.jpg", "d/b.jpg"]
    index := 0
    zoom := 1
    fit_mode := true
    rotation := 0
    image := some { width := 4, height := 3 }
    fullscreen := false
    rename_entry := some "b"
    rename_current_path := some "d/a.jpg"
    conflictBound := false
    status := ""
    lastDialog := none }

/-- A plain Browse-mode state showing `d/a.jpg`. -/
def browseState : AppState :=
  { renamingState with
    rename_entry := none
    rename_current_path := none
    conflictBound := true }

/-- A Browse-mode state whose file set is the single file `d/a.jpg`. -/
def singleFileState : AppState :=
  { browseState with files := ["d/a.jpg"] }

/-- The state `load_path exWorld initialState "d"` computes to: the sorted
scenario file set with the cursor at 0 and the first image decoded. -/
def exOpened : AppState :=
  { files := ["d/a.png", "d/b.jpg", "d/c.heic"]
    index := 0
    zoom := 1
    fit_mode := true
    rotation := 0
    image := some { width := 4, height := 3 }
    fullscreen := false
    rename_entry := none
    rename_current_path := none
    conflictBound := true
    status := "a.png  [1/3]  4×3"
    lastDialog := none }

/-! ### Helper lemmas -/

theorem pyMax_eq_max (a b : ℚ) : pyMax a b = max a b := by
  rw [pyMax, max_def]
  rcases lt_trichotomy a b with h | h | h
  · rw [if_pos h, if_pos h.le]
  · subst h
    simp
  · rw [if_neg (not_lt.mpr h.le), if_neg (not_le.mpr h)]

theorem pyMin_eq_min (a b : ℚ) : pyMin a b = min a b := by
  rw [pyMin, min_def]
  rcases lt_trichotomy b a with h | h | h
  · rw [if_pos h, if_neg (not_le.mpr h)]
  · subst h
    simp
  · rw [if_neg (not_lt.mpr h.le), if_pos h.le]

theorem charListLe_iff : ∀ as bs : List Char, charListLe as bs = true ↔ ¬ bs < as
  | [], bs => by
    constructor
    · intro _ h
      cases h
    · intro _
      rfl
  | a :: as, [] => by
    constructor
    · intro h
      exact Bool.noConfusion h
    · intro h
      exact absurd List.Lex.nil h
  | a :: as, b :: bs => by
    simp only [charListLe]
    by_cases hab : a < b
    · rw [if_pos hab]
      constructor
      · intro _ h
        cases h with
        | cons h1 => exact lt_irrefl _ hab
        | rel h1 => exact absurd hab (asymm h1)
      · intro _
        rfl
    · rw [if_neg hab]
      by_cases hba : b < a
      · rw [if_pos hba]
        constructor
        · intro h
          exact Bool.noConfusion h
        · intro h
          exact absurd (List.Lex.rel hba) h
      · rw [if_neg hba]
        have heq : a = b := le_antisymm (le_of_not_lt hba) (le_of_not_lt hab)
        subst heq
        rw [charListLe_iff as bs]
        constructor
        · intro h hcon
          cases hcon with
          | cons h1 => exact h h1
          | rel h1 => exact lt_irrefl _ h1
        · intro h h1
          exact h (List.Lex.cons h1)

theorem strLe_iff (a b : String) : strLe a b = true ↔ a ≤ b := by
  show charListLe a.data b.data = true ↔ a ≤ b
  rw [charListLe_iff]
  rw [← not_lt (a := b) (b := a)]
  exact not_congr (Iff.symm String.lt_iff_toList_lt)

instance : IsTotal String (fun a b => strLe a b = true) :=
  ⟨fun a b => by
    rcases le_total a b with h | h
    · exact Or.inl ((strLe_iff a b).mpr h)
    · exact Or.inr ((strLe_iff b a).mpr h)⟩

instance : IsTrans String (fun a b => strLe a b = true) :=
  ⟨fun a b c hab hbc =>
    (strLe_iff a c).mpr (le_trans ((strLe_iff a b).mp hab)
      ((strLe_iff b c).mp hbc))⟩

theorem sortStrings_sorted (l : List String) :
    List.Sorted (fun a b : String => a ≤ b) (sortStrings l) :=
  (List.sorted_insertionSort _ l).imp (fun h => (strLe_iff _ _).mp h)

theorem sortStrings_perm (l : List String) : (sortStrings l).Perm l :=
  List.perm_insertionSort _ l

theorem open_index_files (w : World) (s : AppState) (i : Int) :
    (open_index w s i).files = s.files := by
  rw [open_index]
  split
  · rfl
  · dsimp only
    split <;> rfl

theorem open_index_index (w : World) (s : AppState) (i : Int)
    (hne : s.files ≠ []) :
    (open_index w s i).index = (i % (s.files.length : Int)).toNat := by
  rw [open_index, if_neg hne]
  dsimp only
  split <;> rfl

/-! ### Claims -/

/-- C1: the claim says a conflicting rename commit fails with the conflict
surfaced, performs no filesystem mutation, and leaves the system in
Renaming mode with the draft preserved for correction.  Evaluating
`do_rename` at a concrete conflicting commit (renaming `d/a.jpg` to `b`
while `d/b.jpg` exists): the conflict dialog is shown and no filesystem
mutation happens, but — against the claim and against the source's own
comment at the conflict `return` — the `finally` clause runs
`cancel_rename`, destroying the entry, clearing the stored path and
restoring the suppressed key bindings, i.e. the draft is NOT preserved and
the system leaves Renaming mode. -/
theorem c1_conflict_destroys_draft :
    (do_renameFull conflictWorld renamingState).2 = []
    ∧ (do_renameFull conflictWorld renamingState).1.lastDialog
        = some "File already exists: b.jpg"
    ∧ (do_renameFull conflictWorld renamingState).1.rename_entry = none
    ∧ (do_renameFull conflictWorld renamingState).1.rename_current_path = none
    ∧ (do_renameFull conflictWorld renamingState).1.conflictBound = true := by
  decide

/-- C2 (counterexample): not every zoom command is dropped while Renaming.
The mouse-wheel zoom bindings are not in `CONFLICT_BINDINGS` and stay
bound, so a wheel-up event during an active rename runs `zoom_by(1.1)` and
changes the zoom factor and the fit flag. -/
theorem c2_wheel_zoom_during_renaming :
    renamingState.rename_entry.isSome = true
    ∧ renamingState.conflictBound = false
    ∧ renamingState.zoom = 1
    ∧ renamingState.fit_mode = true
    ∧ (dispatchKey exWorld renamingState Key.wheelUp).zoom = 1.1
    ∧ (dispatchKey exWorld renamingState Key.wheelUp).fit_mode = false := by
  refine ⟨rfl, rfl, rfl, rfl, ?_, rfl⟩
  show pyMax 0.05 (pyMin 8.0 ((1 : ℚ) * 1.1)) = 1.1
  norm_num [pyMax, pyMin]

/-- C2 (amended): while the conflict bindings are suppressed (Renaming),
every key in `CONFLICT_BINDINGS` — navigation, keyboard zoom, rotate,
delete, open, start-rename and fullscreen-toggle — is dropped with no state
change, while commit (Return) and cancel (Escape) stay accepted; mouse-wheel
zoom events are not suppressed.  While the bindings are in place (Browse),
every delivered input runs its handler, and the commit handler is a no-op
when no rename is active. -/
theorem c2_mode_validity (w : World) (s : AppState) :
    (s.conflictBound = false →
      ∀ k : Key, conflictKey k = true → dispatchKey w s k = s)
    ∧ dispatchKey w s Key.enter = do_rename w s
    ∧ dispatchKey w s Key.escape = cancel_rename_or_exit_fullscreen s
    ∧ (s.conflictBound = true →
      ∀ k : Key, dispatchKey w s k = keyAction w s k)
    ∧ (s.rename_entry = none → do_rename w s = s) := by
  refine ⟨?_, rfl, rfl, ?_, ?_⟩
  · intro h k hk
    simp [dispatchKey, hk, h]
  · intro h k
    simp [dispatchKey, h]
  · intro h
    simp [do_rename, do_renameFull, h]

theorem c2_mode_validity_witness :
    renamingState.conflictBound = false
    ∧ conflictKey Key.fLower = true
    ∧ dispatchKey exWorld renamingState Key.fLower = renamingState
    ∧ browseState.rename_entry = none
    ∧ do_rename exWorld browseState = browseState :=
  ⟨rfl, rfl, (c2_mode_validity exWorld renamingState).1 rfl Key.fLower rfl,
   rfl, (c2_mode_validity exWorld browseState).2.2.2.2 rfl⟩

/-- C3 (counterexample): opening a path whose directory cannot be listed
does not surface a `NotFoundError` status message — `load_path` has no
exception handling around the directory scan, so the exception escapes;
at startup (before `mainloop`) that terminates the process. -/
theorem c3_startup_crash :
    load_path goneWorld initialState "gone/photos"
      = Except.error PyErr.notFound
    ∧ startup goneWorld (some "gone/photos") = Except.error PyErr.notFound :=
  ⟨rfl, rfl⟩

/-- C3 (amended): when the directory that `load_path` scans (the path
itself for a directory, its parent otherwise) does not exist or is
inaccessible, the scan's exception propagates out of `load_path` with no
status message and no state change; at startup it terminates the process,
while the open-dialog callback has it swallowed by the toolkit, leaving the
state unchanged. -/
theorem c3_open_missing_raises (w : World) (s : AppState) (p : String)
    (hfail : w.listDir (if w.isDir p then p else parentPath p) = none) :
    load_path w s p = Except.error PyErr.notFound
    ∧ startup w (some p) = Except.error PyErr.notFound
    ∧ (w.openChoice = OpenChoice.folder p → open_dialog w s = s) := by
  have hload : ∀ t : AppState, load_path w t p = Except.error PyErr.notFound := by
    intro t
    by_cases hd : w.isDir p
    · rw [if_pos hd] at hfail
      rw [load_path, if_pos hd, hfail]
    · rw [if_neg hd] at hfail
      rw [load_path, if_neg hd, hfail]
  refine ⟨hload s, ?_, ?_⟩
  · rw [startup, hload initialState]
  · intro hc
    simp only [open_dialog, hc, hload s]

theorem c3_open_missing_raises_witness :
    goneWorld.listDir
      (if goneWorld.isDir "gone/photos" then "gone/photos"
       else parentPath "gone/photos") = none
    ∧ load_path goneWorld initialState "gone/photos"
        = Except.error PyErr.notFound
    ∧ open_dialog goneWorld initialState = initialState :=
  ⟨rfl,
   (c3_open_missing_raises goneWorld initialState "gone/photos" rfl).1,
   (c3_open_missing_raises goneWorld initialState "gone/photos" rfl).2.2 rfl⟩

/-- C4: on a non-empty file set of length N, `advance(delta)` followed by
`advance(-delta)` brings the cursor back to its original value modulo N,
for every starting cursor and every integer delta. -/
theorem c4_advance_roundtrip (w : World) (s : AppState)
    (hne : s.files ≠ []) (d : Int) :
    (advance w (advance w s d) (-d)).index = s.index % s.files.length := by
  have hn : 0 < s.files.length := List.length_pos.mpr hne
  have h1 : advance w s d = open_index w s ((s.index : Int) + d) := by
    rw [advance, if_neg hne]
  have hf1 : (advance w s d).files = s.files := by
    rw [h1, open_index_files]
  have hi1 : (advance w s d).index
      = (((s.index : Int) + d) % (s.files.length : Int)).toNat := by
    rw [h1, open_index_index w s _ hne]
  have hne2 : (advance w s d).files ≠ [] := by rw [hf1]; exact hne
  have h2 : advance w (advance w s d) (-d)
      = open_index w (advance w s d) (((advance w s d).index : Int) + (-d)) := by
    rw [advance, if_neg hne2]
  have hi2 : (advance w (advance w s d) (-d)).index
      = ((((advance w s d).index : Int) + (-d))
          % (s.files.length : Int)).toNat := by
    rw [h2, open_index_index w _ _ hne2, hf1]
  have hnz : (s.files.length : Int) ≠ 0 := by
    exact_mod_cast hn.ne'
  rw [hi2]
  simp only [hi1]
  rw [Int.toNat_of_nonneg (Int.emod_nonneg _ hnz)]
  have hsimp : (((s.index : Int) + d) % (s.files.length : Int) + -d)
      % (s.files.length : Int)
      = (s.index : Int) % (s.files.length : Int) := by
    conv_rhs => rw [← add_neg_cancel_right ((s.index : Int)) d, Int.add_emod]
    conv_lhs => rw [Int.add_emod]
    rw [Int.emod_emod_of_dvd _ dvd_rfl]
  rw [hsimp, ← Int.natCast_mod, Int.toNat_natCast]

theorem c4_advance_roundtrip_witness :
    browseState.files ≠ []
    ∧ (advance exWorld (advance exWorld browseState 5) (-5)).index
        = browseState.index % browseState.files.length :=
  ⟨by decide, c4_advance_roundtrip exWorld browseState (by decide) 5⟩

/-- C5: opening a directory yields a file set sorted ascending by full
path, with no duplicates, containing exactly the listed children whose
extension (lower-cased) is in the supported set, and the cursor at 0; on
the scenario directory holding `b.jpg`, `a.png`, `c.heic` the order is
`[a.png, b.jpg, c.heic]` with cursor 0. -/
theorem c5_openDirectory (w : World) (s : AppState) (p : String)
    (entries : List String)
    (hdir : w.isDir p = true) (hlist : w.listDir p = some entries)
    (hnd : entries.Nodup) :
    (∃ t, load_path w s p = Except.ok t
      ∧ List.Sorted (fun a b : String => a ≤ b) t.files
      ∧ t.files.Nodup
      ∧ (∀ x, x ∈ t.files ↔ (x ∈ entries ∧ supportedFile x = true))
      ∧ t.index = 0)
    ∧ (∃ t, load_path exWorld initialState "d" = Except.ok t
      ∧ t.files = ["d/a.png", "d/b.jpg", "d/c.heic"] ∧ t.index = 0) := by
  constructor
  · have hperm := sortStrings_perm (entries.filter supportedFile)
    have hsorted := sortStrings_sorted (entries.filter supportedFile)
    have hnodup : (sortStrings (entries.filter supportedFile)).Nodup :=
      hperm.nodup_iff.mpr (hnd.filter supportedFile)
    have hmem : ∀ x, x ∈ sortStrings (entries.filter supportedFile)
        ↔ (x ∈ entries ∧ supportedFile x = true) := by
      intro x
      rw [hperm.mem_iff, List.mem_filter]
    have hstep : load_path w s p
        = (if sortStrings (entries.filter supportedFile) = []
           then Except.ok { s with
             files := sortStrings (entries.filter supportedFile), index := 0,
             status := "No images found in that location." }
           else Except.ok (open_index w { s with
             files := sortStrings (entries.filter supportedFile), index := 0 }
             0)) := by
      rw [load_path, if_pos hdir, hlist]
      rfl
    rw [hstep]
    by_cases hemp : sortStrings (entries.filter supportedFile) = []
    · rw [if_pos hemp]
      exact ⟨_, rfl, hsorted, hnodup, hmem, rfl⟩
    · rw [if_neg hemp]
      refine ⟨_, rfl, ?_, ?_, ?_, ?_⟩
      · rw [open_index_files]
        exact hsorted
      · rw [open_index_files]
        exact hnodup
      · intro x
        rw [open_index_files]
        exact hmem x
      · rw [open_index_index w _ 0 hemp]
        simp
  · exact ⟨exOpened, rfl, rfl, rfl⟩

theorem c5_openDirectory_witness :
    (["d/b.jpg", "d/a.png", "d/c.heic"] : List String).Nodup
    ∧ ((∃ t, load_path exWorld initialState "d" = Except.ok t
        ∧ List.Sorted (fun a b : String => a ≤ b) t.files
        ∧ t.files.Nodup
        ∧ (∀ x, x ∈ t.files ↔ (x ∈ ["d/b.jpg", "d/a.png", "d/c.heic"]
            ∧ supportedFile x = true))
        ∧ t.index = 0)
      ∧ (∃ t, load_path exWorld initialState "d" = Except.ok t
        ∧ t.files = ["d/a.png", "d/b.jpg", "d/c.heic"] ∧ t.index = 0)) :=
  ⟨by decide,
   c5_openDirectory exWorld initialState "d" _ rfl rfl (by decide)⟩

/-- C6: with an image loaded, `set_zoom(z)` stores z clamped into
`[0.05, 8.0]` and leaves fit mode (`set_zoom(1000)` gives 8.0,
`set_zoom(0.0001)` gives 0.05), and `zoom_by(factor)` is definitionally
`set_zoom(zoom * factor)`. -/
theorem c6_zoom_clamp (s : AppState) (himg : s.image.isSome = true)
    (z f : ℚ) :
    (set_zoom s z).zoom = max 0.05 (min 8.0 z)
    ∧ (set_zoom s z).fit_mode = false
    ∧ (set_zoom s 1000).zoom = 8.0
    ∧ (set_zoom s 0.0001).zoom = 0.05
    ∧ zoom_by s f = set_zoom s (s.zoom * f) := by
  obtain ⟨img, himg⟩ := Option.isSome_iff_exists.mp himg
  have hclamp : ∀ y : ℚ, (set_zoom s y).zoom = max 0.05 (min 8.0 y) := by
    intro y
    rw [set_zoom, himg]
    show pyMax 0.05 (pyMin 8.0 y) = max 0.05 (min 8.0 y)
    rw [pyMax_eq_max, pyMin_eq_min]
  refine ⟨hclamp z, ?_, ?_, ?_, rfl⟩
  · rw [set_zoom, himg]
  · rw [hclamp 1000]
    norm_num [max_def, min_def]
  · rw [hclamp 0.0001]
    norm_num [max_def, min_def]

theorem c6_zoom_clamp_witness :
    browseState.image.isSome = true
    ∧ (set_zoom browseState 1000).zoom = 8.0
    ∧ (set_zoom browseState 0.0001).zoom = 0.05 :=
  ⟨rfl, (c6_zoom_clamp browseState rfl 1000 1).2.2.1,
   (c6_zoom_clamp browseState rfl 0.0001 1).2.2.2.1⟩

/-- C7: with a valid cursor and a succeeding trash call, `delete_current`
removes exactly the entry at the cursor and clamps the cursor to
`max 0 (length - 1)` when it now falls past the end; deleting from a
one-element set leaves the empty set, clears the image, reports
`No images left.`, and every subsequent `advance`/`next`/`prev` is a no-op
(the empty-set guard — the spec's `EmptySetError` aftermath state). -/
theorem c7_removeCurrent (w : World) (s : AppState)
    (hidx : s.index < s.files.length)
    (ht : w.trashOk (s.files.getD s.index "") = true) :
    (delete_current w s).files = s.files.eraseIdx s.index
    ∧ (delete_current w s).index
        = (if (delete_current w s).files.length ≤ s.index
           then max 0 ((delete_current w s).files.length - 1) else s.index)
    ∧ (s.files.length = 1 →
        (delete_current w s).files = []
        ∧ (delete_current w s).image = none
        ∧ (delete_current w s).status = "No images left."
        ∧ (∀ dlt : Int, advance w (delete_current w s) dlt = delete_current w s)
        ∧ next w (delete_current w s) = delete_current w s
        ∧ prev w (delete_current w s) = delete_current w s) := by
  have hne : s.files ≠ [] := by
    intro h
    rw [h] at hidx
    simp at hidx
  have hget : s.files[s.index]? = some s.files[s.index] :=
    List.getElem?_eq_getElem hidx
  have hgetD : s.files.getD s.index "" = s.files[s.index] := by
    rw [List.getD_eq_getElem?_getD, hget]
    rfl
  rw [hgetD] at ht
  have hlen1 : (s.files.eraseIdx s.index).length = s.files.length - 1 :=
    List.length_eraseIdx_of_lt hidx
  by_cases hemp : s.files.eraseIdx s.index = []
  · have hF : delete_current w s
        = { s with files := s.files.eraseIdx s.index,
                   index := if (s.files.eraseIdx s.index).length ≤ s.index
                     then max 0 ((s.files.eraseIdx s.index).length - 1)
                     else s.index,
                   image := none, status := "No images left." } := by
      rw [delete_current, delete_currentFull, if_neg hne, hget]
      dsimp only
      rw [if_pos ht, if_pos hemp]
    rw [hF]
    refine ⟨rfl, rfl, ?_⟩
    intro _
    refine ⟨hemp, rfl, rfl, ?_, ?_, ?_⟩
    · intro dlt
      rw [advance, if_pos hemp]
    · rw [next, if_pos hemp]
    · rw [prev, if_pos hemp]
  · have hF : delete_current w s
        = open_index w
            { s with files := s.files.eraseIdx s.index,
                     index := if (s.files.eraseIdx s.index).length ≤ s.index
                       then max 0 ((s.files.eraseIdx s.index).length - 1)
                       else s.index,
                     status := "Deleted: " ++ pathName s.files[s.index] }
            ((if (s.files.eraseIdx s.index).length ≤ s.index
              then max 0 ((s.files.eraseIdx s.index).length - 1)
              else s.index : Nat) : Int) := by
      rw [delete_current, delete_currentFull, if_neg hne, hget]
      dsimp only
      rw [if_pos ht, if_neg hemp]
    have hpos : 0 < (s.files.eraseIdx s.index).length :=
      List.length_pos.mpr hemp
    have hidxlt : (if (s.files.eraseIdx s.index).length ≤ s.index
        then max 0 ((s.files.eraseIdx s.index).length - 1)
        else s.index) < (s.files.eraseIdx s.index).length := by
      split
      · omega
      · omega
    have hfiles : (delete_current w s).files = s.files.eraseIdx s.index := by
      rw [hF, open_index_files]
    have hindex : (delete_current w s).index
        = (if (s.files.eraseIdx s.index).length ≤ s.index
           then max 0 ((s.files.eraseIdx s.index).length - 1)
           else s.index) := by
      rw [hF, open_index_index w _ _ hemp]
      rw [Int.emod_eq_of_lt (Int.natCast_nonneg _) (by exact_mod_cast hidxlt)]
      exact Int.toNat_natCast _
    refine ⟨hfiles, ?_, ?_⟩
    · rw [hindex, hfiles]
    · intro h1
      rw [h1] at hlen1
      exact absurd (List.length_eq_zero.mp hlen1) hemp

theorem c7_removeCurrent_witness :
    (delete_current exWorld singleFileState).files = []
    ∧ (delete_current exWorld singleFileState).image = none
    ∧ (delete_current exWorld singleFileState).status = "No images left."
    ∧ next exWorld (delete_current exWorld singleFileState)
        = delete_current exWorld singleFileState :=
  ⟨((c7_removeCurrent exWorld singleFileState (by decide) rfl).2.2 rfl).1,
   ((c7_removeCurrent exWorld singleFileState (by decide) rfl).2.2 rfl).2.1,
   ((c7_removeCurrent exWorld singleFileState (by decide) rfl).2.2 rfl).2.2.1,
   ((c7_removeCurrent exWorld singleFileState (by decide) rfl).2.2
     rfl).2.2.2.2.1⟩

/-- C8: whenever the cursor moves to an entry whose file decodes (a new
image is opened), the view state is reset to zoom 1, fit mode on and
rotation 0, whatever the prior values were. -/
theorem c8_view_reset (w : World) (s : AppState) (i : Int) (img : PyImage)
    (hne : s.files ≠ [])
    (hdec : w.decode (s.files.getD ((i % (s.files.length : Int)).toNat) "")
        = some img) :
    (open_index w s i).zoom = 1
    ∧ (open_index w s i).fit_mode = true
    ∧ (open_index w s i).rotation = 0
    ∧ (open_index w s i).image = some img := by
  rw [open_index, if_neg hne]
  dsimp only
  rw [hdec]
  exact ⟨rfl, rfl, rfl, rfl⟩

theorem c8_view_reset_witness :
    (open_index exWorld browseState 1).zoom = 1
    ∧ (open_index exWorld browseState 1).fit_mode = true
    ∧ (open_index exWorld browseState 1).rotation = 0 :=
  ⟨(c8_view_reset exWorld browseState 1 { width := 4, height := 3 }
      (by decide) rfl).1,
   (c8_view_reset exWorld browseState 1 { width := 4, height := 3 }
      (by decide) rfl).2.1,
   (c8_view_reset exWorld browseState 1 { width := 4, height := 3 }
      (by decide) rfl).2.2.1⟩

/-- C9: when the file at the target index exists but fails to decode,
`open_index` still updates the cursor (the assignment precedes the `try`),
leaves the displayed image, zoom, fit flag and rotation at their previous
values, keeps the file in the set, and only the status text reports the
failure. -/
theorem c9_decode_failure (w : World) (s : AppState) (i : Int)
    (hne : s.files ≠ [])
    (hdec : w.decode (s.files.getD ((i % (s.files.length : Int)).toNat) "")
        = none) :
    (open_index w s i).index = (i % (s.files.length : Int)).toNat
    ∧ (open_index w s i).image = s.image
    ∧ (open_index w s i).zoom = s.zoom
    ∧ (open_index w s i).fit_mode = s.fit_mode
    ∧ (open_index w s i).rotation = s.rotation
    ∧ (open_index w s i).files = s.files
    ∧ (open_index w s i).status
        = "Failed to open: "
          ++ pathName (s.files.getD ((i % (s.files.length : Int)).toNat) "")
          ++ " (error)" := by
  rw [open_index, if_neg hne]
  dsimp only
  rw [hdec]
  exact ⟨rfl, rfl, rfl, rfl, rfl, rfl, rfl⟩

theorem c9_decode_failure_witness :
    (open_index corruptWorld browseState 1).index = 1
    ∧ (open_index corruptWorld browseState 1).image = browseState.image
    ∧ (open_index corruptWorld browseState 1).zoom = browseState.zoom
    ∧ (open_index corruptWorld browseState 1).files = browseState.files :=
  ⟨(c9_decode_failure corruptWorld browseState 1 (by decide) rfl).1,
   (c9_decode_failure corruptWorld browseState 1 (by decide) rfl).2.1,
   (c9_decode_failure corruptWorld browseState 1 (by decide) rfl).2.2.1,
   (c9_decode_failure corruptWorld browseState 1 (by decide) rfl).2.2.2.2.2.1⟩

/-- C10: the draft is a single optional field, and `start_rename` on a
state that already has one first runs `cancel_rename` — destroying the
entry, clearing the stored path and restoring the suppressed bindings —
so starting a rename mid-rename equals starting it from the cancelled
state: at most one draft ever exists. -/
theorem c10_single_draft (w : World) (s : AppState) (use_date : Bool)
    (hentry : s.rename_entry.isSome = true)
    (himg : s.image.isSome = true) :
    start_rename w s use_date = start_rename w (cancel_rename s) use_date
    ∧ (cancel_rename s).rename_entry = none
    ∧ (cancel_rename s).rename_current_path = none
    ∧ (cancel_rename s).conflictBound = true := by
  obtain ⟨e, he⟩ := Option.isSome_iff_exists.mp hentry
  obtain ⟨img, himg⟩ := Option.isSome_iff_exists.mp himg
  refine ⟨?_, ?_, ?_, ?_⟩ <;>
    simp [start_rename, cancel_rename, he, himg]

theorem c10_single_draft_witness :
    start_rename exWorld renamingState false
      = start_rename exWorld (cancel_rename renamingState) false
    ∧ (cancel_rename renamingState).rename_entry = none
    ∧ (cancel_rename renamingState).conflictBound = true :=
  ⟨(c10_single_draft exWorld renamingState false rfl rfl).1,
   (c10_single_draft exWorld renamingState false rfl rfl).2.1,
   (c10_single_draft exWorld renamingState false rfl rfl).2.2.2⟩

end MiniViewer
